import Mathlib

/-!
Verification of the gravity cluster-lifecycle control plane core.

This file gives a shallow embedding of the operation store accessors and
terminal state transitions (e/tool/gravity/cli sources, package ops), the
agent-side command executor and the discovery client (lib/rpc sources),
and the enterprise ACL operator wrapper (e/lib/ops/acl/operator.go),
together with theorems settling the specification claims about them.
-/

/-! ## Error model

Errors in the Go sources are values of the gravitational/trace library.
A trace error carries a classification (NotFound, BadParameter,
AccessDenied, or a plain error), a message, optional field annotations
and a stack of trace frames.  trace.Wrap keeps the classification,
message and fields of the wrapped error and adds a trace frame;
trace.Wrap with an extra message prepends that message. -/

inductive ErrKind where
  | notFound
  | badParameter
  | accessDenied
  | other
deriving DecidableEq, Repr

structure Err where
  kind : ErrKind
  msg : String
  fields : List (String × String)
  traces : Nat
deriving DecidableEq, Repr

/-- Models trace.Wrap(err): the wrapped error keeps its classification,
message and fields and gains one trace frame. -/
def traceWrap (e : Err) : Err :=
  { e with traces := e.traces + 1 }

/-- Models trace.Wrap(err, message): like traceWrap, with the extra
message prepended to the original one. -/
def traceWrapMsg (m : String) (e : Err) : Err :=
  { kind := e.kind, msg := m ++ ": " ++ e.msg, fields := e.fields, traces := e.traces + 1 }

/-- Models the AddField method of a trace error. -/
def Err.addField (e : Err) (k v : String) : Err :=
  { e with fields := (k, v) :: e.fields }

/-- Models trace.NotFound(message). -/
def traceNotFound (m : String) : Err :=
  { kind := .notFound, msg := m, fields := [], traces := 0 }

/-- Models trace.BadParameter(message). -/
def traceBadParameter (m : String) : Err :=
  { kind := .badParameter, msg := m, fields := [], traces := 0 }

/-- Models trace.AccessDenied(message). -/
def traceAccessDenied (m : String) : Err :=
  { kind := .accessDenied, msg := m, fields := [], traces := 0 }

namespace Ops

/-! ## Data model of e/tool/gravity/cli/run.go (package ops)

Times are modelled as integers (nanoseconds since the epoch); the current
UTC time is passed to the embedded functions as an explicit argument
where the Go code reads the clock. -/

structure SiteKey where
  accountID : String
  siteDomain : String
deriving DecidableEq, Repr

structure SiteOperationKey where
  accountID : String
  siteDomain : String
  operationID : String
deriving DecidableEq, Repr

/-- A cluster operation record as stored by the backend.  ops.SiteOperation
is a plain type cast of the storage operation in Go, so a single structure
models both.  The field opType stands for the Go field Type. -/
structure SiteOperation where
  id : String
  accountID : String
  siteDomain : String
  opType : String
  state : String
  created : Int
deriving DecidableEq, Repr

/-- Models the Key method of an operation. -/
def SiteOperation.key (op : SiteOperation) : SiteOperationKey :=
  { accountID := op.accountID, siteDomain := op.siteDomain, operationID := op.id }

structure ProgressEntry where
  siteDomain : String
  operationID : String
  step : Int
  completion : Int
  state : String
  message : String
  created : Int
deriving DecidableEq, Repr

structure OperationsFilter where
  types : List String := []
  last : Bool := false
  complete : Bool := false
  active : Bool := false
  finished : Bool := false
deriving DecidableEq, Repr

structure Site where
  accountID : String
  domain : String
deriving DecidableEq, Repr

/-- Models the Key method of a cluster record. -/
def Site.key (s : Site) : SiteKey :=
  { accountID := s.accountID, siteDomain := s.domain }

structure SetOperationStateRequest where
  state : String
  progress : ProgressEntry
deriving DecidableEq, Repr

structure ActivateSiteRequest where
  accountID : String
  siteDomain : String
deriving DecidableEq, Repr

/-- Operation type constants of the ops package. -/
def OperationInstall : String := "operation_install"

def OperationUninstall : String := "operation_uninstall"

def OperationUpdate : String := "operation_update"

def OperationShrink : String := "operation_shrink"

def OperationExpand : String := "operation_expand"

def OperationStateCompleted : String := "completed"

def OperationStateFailed : String := "failed"

def ProgressStateCompleted : String := "completed"

def ProgressStateFailed : String := "failed"

/-- Modelled from the spec: constants.FinalStep, the fixed final step
marker used by the terminal progress entries, lives in the repository
constants package which is not under src. -/
def FinalStep : Int := 9

/-- Modelled from the spec: constants.Completed, the 100 percent
completion marker, lives in the repository constants package which is
not under src. -/
def Completed : Int := 100

/-- Modelled from the spec: defaults.SystemAccountID, the well known
system account identifier, lives in the repository defaults package
which is not under src. -/
def SystemAccountID : String := "00000000-0000-0000-0000-000000000001"

/-- Backend calls the embedded functions may issue; each embedded
function returns the list of calls it performed, in order, alongside its
result. -/
inductive Call where
  | getSiteOperations (key : SiteKey) (filter : OperationsFilter)
  | getSiteOperationProgress (key : SiteOperationKey)
  | getSiteOperation (key : SiteOperationKey)
  | getSites (accountID : String)
  | setOperationState (key : SiteOperationKey) (req : SetOperationStateRequest)
  | activateSite (req : ActivateSiteRequest)
deriving DecidableEq, Repr

/-- The Operator interface consumed by the accessors and the state
controller, modelled as a record of response functions: the backend may
answer each call with an error or a value. -/
structure Operator where
  getSiteOperations : SiteKey → OperationsFilter → Except Err (List SiteOperation)
  getSiteOperationProgress : SiteOperationKey → Except Err ProgressEntry
  getSiteOperation : SiteOperationKey → Except Err SiteOperation
  getSites : String → Except Err (List Site)
  setOperationState : SiteOperationKey → SetOperationStateRequest → Option Err
  activateSite : ActivateSiteRequest → Option Err

/-- Renders a site key the way the Go %v verb renders the struct inside
the not-found messages. -/
def formatSiteKey (k : SiteKey) : String :=
  "\x7b" ++ k.accountID ++ " " ++ k.siteDomain ++ "\x7d"

/-- Embedding of ops.GetInstallOperation. -/
def GetInstallOperation (siteKey : SiteKey) (operator : Operator) :
    List Call × Except Err (SiteOperation × ProgressEntry) :=
  let filter : OperationsFilter := { types := [OperationInstall] }
  match operator.getSiteOperations siteKey filter with
  | .error e => ([Call.getSiteOperations siteKey filter], .error (traceWrap e))
  | .ok operations =>
    match operations with
    | [] => ([Call.getSiteOperations siteKey filter],
        .error (traceNotFound ("no install operation found for " ++ formatSiteKey siteKey)))
    | op :: _ =>
      match operator.getSiteOperationProgress op.key with
      | .error e =>
        ([Call.getSiteOperations siteKey filter, Call.getSiteOperationProgress op.key],
          .error (traceWrap e))
      | .ok progress =>
        ([Call.getSiteOperations siteKey filter, Call.getSiteOperationProgress op.key],
          .ok (op, progress))

/-- Embedding of ops.GetLastUninstallOperation. -/
def GetLastUninstallOperation (siteKey : SiteKey) (operator : Operator) :
    List Call × Except Err (SiteOperation × ProgressEntry) :=
  let filter : OperationsFilter := { types := [OperationUninstall], last := true }
  match operator.getSiteOperations siteKey filter with
  | .error e => ([Call.getSiteOperations siteKey filter], .error (traceWrap e))
  | .ok operations =>
    match operations with
    | [] => ([Call.getSiteOperations siteKey filter],
        .error (traceNotFound ("no uninstall operation found for " ++ formatSiteKey siteKey)))
    | op :: _ =>
      match operator.getSiteOperationProgress op.key with
      | .error e =>
        ([Call.getSiteOperations siteKey filter, Call.getSiteOperationProgress op.key],
          .error (traceWrap e))
      | .ok progress =>
        ([Call.getSiteOperations siteKey filter, Call.getSiteOperationProgress op.key],
          .ok (op, progress))

/-- Embedding of ops.GetLastCompletedUpdateOperation. -/
def GetLastCompletedUpdateOperation (siteKey : SiteKey) (operator : Operator) :
    List Call × Except Err SiteOperation :=
  let filter : OperationsFilter := { types := [OperationUpdate], last := true, complete := true }
  match operator.getSiteOperations siteKey filter with
  | .error e => ([Call.getSiteOperations siteKey filter], .error (traceWrap e))
  | .ok operations =>
    match operations with
    | [] => ([Call.getSiteOperations siteKey filter],
        .error (traceNotFound ("no completed update operation found for " ++ formatSiteKey siteKey)))
    | op :: _ => ([Call.getSiteOperations siteKey filter], .ok op)

/-- Embedding of ops.GetCompletedInstallOperation. -/
def GetCompletedInstallOperation (siteKey : SiteKey) (operator : Operator) :
    List Call × Except Err SiteOperation :=
  let filter : OperationsFilter := { types := [OperationInstall], last := true, complete := true }
  match operator.getSiteOperations siteKey filter with
  | .error e => ([Call.getSiteOperations siteKey filter], .error (traceWrap e))
  | .ok operations =>
    match operations with
    | [] => ([Call.getSiteOperations siteKey filter],
        .error (traceNotFound ("no completed install operation found for " ++ formatSiteKey siteKey)))
    | op :: _ => ([Call.getSiteOperations siteKey filter], .ok op)

/-- Embedding of ops.GetLastOperation. -/
def GetLastOperation (siteKey : SiteKey) (operator : Operator) :
    List Call × Except Err (SiteOperation × ProgressEntry) :=
  let filter : OperationsFilter := { last := true }
  match operator.getSiteOperations siteKey filter with
  | .error e => ([Call.getSiteOperations siteKey filter], .error (traceWrap e))
  | .ok operations =>
    match operations with
    | [] => ([Call.getSiteOperations siteKey filter],
        .error (traceNotFound ("no operation found for " ++ formatSiteKey siteKey)))
    | op :: _ =>
      match operator.getSiteOperationProgress op.key with
      | .error e =>
        ([Call.getSiteOperations siteKey filter, Call.getSiteOperationProgress op.key],
          .error (traceWrap e))
      | .ok progress =>
        ([Call.getSiteOperations siteKey filter, Call.getSiteOperationProgress op.key],
          .ok (op, progress))

/-- Embedding of ops.GetLastFinishedOperation. -/
def GetLastFinishedOperation (siteKey : SiteKey) (operator : Operator) :
    List Call × Except Err (SiteOperation × ProgressEntry) :=
  let filter : OperationsFilter := { last := true, finished := true }
  match operator.getSiteOperations siteKey filter with
  | .error e => ([Call.getSiteOperations siteKey filter], .error (traceWrap e))
  | .ok operations =>
    match operations with
    | [] => ([Call.getSiteOperations siteKey filter],
        .error (traceNotFound ("no completed operation found for " ++ formatSiteKey siteKey)))
    | op :: _ =>
      match operator.getSiteOperationProgress op.key with
      | .error e =>
        ([Call.getSiteOperations siteKey filter, Call.getSiteOperationProgress op.key],
          .error (traceWrap e))
      | .ok progress =>
        ([Call.getSiteOperations siteKey filter, Call.getSiteOperationProgress op.key],
          .ok (op, progress))

/-- Embedding of ops.GetLastUpgradeOperation. -/
def GetLastUpgradeOperation (siteKey : SiteKey) (operator : Operator) :
    List Call × Except Err SiteOperation :=
  let filter : OperationsFilter := { types := [OperationUpdate], last := true }
  match operator.getSiteOperations siteKey filter with
  | .error e => ([Call.getSiteOperations siteKey filter], .error (traceWrap e))
  | .ok operations =>
    match operations with
    | [] => ([Call.getSiteOperations siteKey filter],
        .error (traceNotFound ("no upgrade operation found for " ++ formatSiteKey siteKey)))
    | op :: _ => ([Call.getSiteOperations siteKey filter], .ok op)

/-- Embedding of ops.GetLastShrinkOperation. -/
def GetLastShrinkOperation (siteKey : SiteKey) (operator : Operator) :
    List Call × Except Err SiteOperation :=
  let filter : OperationsFilter := { types := [OperationShrink], last := true }
  match operator.getSiteOperations siteKey filter with
  | .error e => ([Call.getSiteOperations siteKey filter], .error (traceWrap e))
  | .ok operations =>
    match operations with
    | [] => ([Call.getSiteOperations siteKey filter],
        .error (traceNotFound ("no shrink operation found for " ++ formatSiteKey siteKey)))
    | op :: _ => ([Call.getSiteOperations siteKey filter], .ok op)

/-- Embedding of ops.GetActiveOperations. -/
def GetActiveOperations (siteKey : SiteKey) (operator : Operator) :
    List Call × Except Err (List SiteOperation) :=
  let filter : OperationsFilter := { active := true }
  match operator.getSiteOperations siteKey filter with
  | .error e => ([Call.getSiteOperations siteKey filter], .error (traceWrap e))
  | .ok operations =>
    match operations with
    | [] => ([Call.getSiteOperations siteKey filter],
        .error (traceNotFound ("no active operation found for " ++ formatSiteKey siteKey)))
    | op :: rest => ([Call.getSiteOperations siteKey filter], .ok (op :: rest))

/-- Embedding of ops.GetActiveOperationsByType. -/
def GetActiveOperationsByType (siteKey : SiteKey) (operator : Operator) (opType : String) :
    List Call × Except Err (List SiteOperation) :=
  let filter : OperationsFilter := { types := [opType], active := true }
  match operator.getSiteOperations siteKey filter with
  | .error e => ([Call.getSiteOperations siteKey filter], .error (traceWrap e))
  | .ok operations =>
    match operations with
    | [] => ([Call.getSiteOperations siteKey filter],
        .error (traceNotFound ("no active operation found for " ++ formatSiteKey siteKey
          ++ " with type " ++ opType)))
    | op :: rest => ([Call.getSiteOperations siteKey filter], .ok (op :: rest))

/-- Embedding of ops.GetWizardOperation: exactly one cluster must exist
for the system account; its install operation is returned. -/
def GetWizardOperation (operator : Operator) : List Call × Except Err SiteOperation :=
  match operator.getSites SystemAccountID with
  | .error e => ([Call.getSites SystemAccountID], .error (traceWrap e))
  | .ok clusters =>
    match clusters with
    | [cluster] =>
      match GetInstallOperation cluster.key operator with
      | (calls, .error e) =>
        (Call.getSites SystemAccountID :: calls, .error (traceWrap e))
      | (calls, .ok (op, _)) =>
        (Call.getSites SystemAccountID :: calls, .ok op)
    | _ => ([Call.getSites SystemAccountID], .error (traceBadParameter "expected 1 cluster"))

/-! ## Operation state controller (e/tool/gravity/cli/run.go, package ops) -/

/-- The SetOperationStateRequest that ops.CompleteOperation issues: state
Completed plus the terminal progress entry at the final step, 100 percent
completion, the fixed success message and the current UTC time. -/
def completeOperationRequest (key : SiteOperationKey) (now : Int) : SetOperationStateRequest :=
  { state := OperationStateCompleted,
    progress :=
      { siteDomain := key.siteDomain, operationID := key.operationID,
        step := FinalStep, completion := Completed,
        state := ProgressStateCompleted,
        message := "Operation has completed",
        created := now } }

/-- Embedding of ops.CompleteOperation: a single SetOperationState call
carrying the terminal request.  The argument now stands for the
time.Now().UTC() read. -/
def CompleteOperation (key : SiteOperationKey) (operator : Operator) (now : Int) :
    List Call × Option Err :=
  let req := completeOperationRequest key now
  ([Call.setOperationState key req], operator.setOperationState key req)

/-- Models strings.TrimSpace: removes the whitespace surrounding the
string (defined structurally on the character list so that concrete
instances evaluate; the ASCII versus full Unicode whitespace distinction
is immaterial to the claims). -/
def trimSpace (s : String) : String :=
  String.mk ((((s.data.dropWhile Char.isWhitespace).reverse).dropWhile Char.isWhitespace).reverse)

/-- The message computation inside ops.FailOperation: the prefixed (or
default) message before the final TrimSpace. -/
def failOperationMessage (message : String) : String :=
  if message ≠ "" then "Operation failure: " ++ message else "Operation failure"

/-- The SetOperationStateRequest that ops.FailOperation issues; the
TrimSpace of the Go code is applied to the already prefixed message. -/
def failOperationRequest (key : SiteOperationKey) (message : String) (now : Int) :
    SetOperationStateRequest :=
  { state := OperationStateFailed,
    progress :=
      { siteDomain := key.siteDomain, operationID := key.operationID,
        step := FinalStep, completion := Completed,
        state := ProgressStateFailed,
        message := trimSpace (failOperationMessage message),
        created := now } }

/-- Embedding of ops.FailOperation: a single SetOperationState call
carrying the failure request. -/
def FailOperation (key : SiteOperationKey) (operator : Operator) (message : String) (now : Int) :
    List Call × Option Err :=
  let req := failOperationRequest key message now
  ([Call.setOperationState key req], operator.setOperationState key req)

/-- Embedding of ops.FailOperationAndResetCluster: Fail first; only when
it succeeded, ActivateSite; either error is wrapped and returned. -/
def FailOperationAndResetCluster (key : SiteOperationKey) (operator : Operator)
    (message : String) (now : Int) : List Call × Option Err :=
  let r := FailOperation key operator message now
  match r.2 with
  | some e => (r.1, some (traceWrap e))
  | none =>
    let req : ActivateSiteRequest := { accountID := key.accountID, siteDomain := key.siteDomain }
    match operator.activateSite req with
    | some e => (r.1 ++ [Call.activateSite req], some (traceWrap e))
    | none => (r.1 ++ [Call.activateSite req], none)

/-- Modelled from the spec: the persistent backend that fields a
SetOperationState call is not under src; per the spec it sets the
operation state named in the request and appends the carried progress
entry to the operation progress history. -/
structure BackendState where
  opStates : List (SiteOperationKey × String)
  progressLog : List ProgressEntry
deriving DecidableEq, Repr

/-- Modelled from the spec: the effect of one backend call on the store;
reads leave the store unchanged. -/
def applyCall (b : BackendState) : Call → BackendState
  | Call.setOperationState key req =>
    { opStates := (key, req.state) :: b.opStates,
      progressLog := b.progressLog ++ [req.progress] }
  | _ => b

/-- The state the store currently records for an operation (most recent
write wins). -/
def BackendState.stateOf (b : BackendState) (key : SiteOperationKey) : Option String :=
  (b.opStates.find? (fun p => p.1 == key)).map (fun p => p.2)

end Ops

namespace Exec

/-! ## Command executor (lib/rpc server side)

Shallow embedding of osCommand.exec together with streamWriter and the
event constructors.  The behaviour of the spawned process is an input
(ProcessSpec); the stream is an input function from message to send
result (none meaning the send succeeded).  The os/exec contract is
modelled explicitly: Wait returns the ExitError of an abnormal exit, or,
for a clean exit, the first error met while copying stdout/stderr into
the configured writers; a Write error stops the copy of further chunks.
The int32 sequence counter is modelled as an Int (wraparound is
immaterial to the claims). -/

/-- The value of the exit code when the real exit code is unknown. -/
def ExitCodeUndefined : Int := -1

inductive Fd where
  | stdout
  | stderr
deriving DecidableEq, Repr

structure CommandArgs where
  args : List String
  workingDir : String
deriving DecidableEq, Repr

/-- The tagged union wire message restricted to the three exec events;
the encoded error of a completed event is modelled by its message. -/
inductive Message where
  | execStarted (seq : Int) (args : List String)
  | execOutput (seq : Int) (fd : Fd) (data : List Nat)
  | execCompleted (seq : Int) (exitCode : Int) (err : Option String)
deriving DecidableEq, Repr

/-- How the spawned process behaves: a clean or abnormal exit, or death
by signal (for which the OS reports no exit status). -/
inductive ProcessOutcome where
  | exited (code : Int)
  | signaled
deriving DecidableEq, Repr

/-- One command execution seen from the outside: whether the start
failed, the output chunks the process produces in order, and how it
exits. -/
structure ProcessSpec where
  startError : Option Err
  chunks : List (Fd × List Nat)
  outcome : ProcessOutcome
deriving DecidableEq, Repr

/-- The forwarding of output chunks through streamWriter.Write: each
chunk is sent as an output event; a failed send makes Write return the
error, which stops the copy (remaining chunks are not attempted) and is
recorded as the copy error. -/
def copyChunks (send : Message → Option Err) (seq : Int) :
    List (Fd × List Nat) → List Message × Option Err
  | [] => ([], none)
  | (fd, data) :: rest =>
    let m := Message.execOutput seq fd data
    match send m with
    | some e => ([m], some e)
    | none =>
      let r := copyChunks send seq rest
      (m :: r.1, r.2)

/-- The result of cmd.Wait per the os/exec contract: an abnormal exit or
a signal yields the ExitError (whose WaitStatus reports -1 for a
signal); a clean exit yields the copy error when one occurred, nil
otherwise. -/
inductive WaitErr where
  | exitError (exitStatus : Int)
  | ioError (e : Err)
deriving DecidableEq, Repr

def waitResult (outcome : ProcessOutcome) (copyErr : Option Err) : Option WaitErr :=
  match outcome with
  | .exited code =>
    if code = 0 then copyErr.map WaitErr.ioError else some (WaitErr.exitError code)
  | .signaled => some (WaitErr.exitError (-1))

/-- Models pb.EncodeError for the errors reaching the completed event. -/
def encodeWaitErr : WaitErr → String
  | .exitError code => "exit status " ++ toString code
  | .ioError e => e.msg

/-- The Go error value that exec returns for a Wait failure, before the
final trace.Wrap. -/
def waitErrToErr : WaitErr → Err
  | .exitError code =>
    { kind := .other, msg := "exit status " ++ toString code, fields := [], traces := 0 }
  | .ioError e => e

structure ExecResult where
  seq : Int
  attempted : List Message
  delivered : List Message
  ret : Option Err
deriving DecidableEq, Repr

/-- Embedding of osCommand.exec.  seqCounter is the per connection
counter before the call; the returned Int is its value after the atomic
increment.  attempted lists every message handed to stream.Send in
order; delivered keeps those whose send succeeded (failures of the
started and completed notifications are only logged, per
notifyAndLogError). -/
def osCommandExec (seqCounter : Int) (send : Message → Option Err)
    (req : CommandArgs) (proc : ProcessSpec) : Int × ExecResult :=
  let seq := seqCounter + 1
  match proc.startError with
  | some e =>
    (seq, { seq := seq, attempted := [], delivered := [],
            ret := some ((traceWrapMsg "failed to start" e).addField "path"
              (req.args.headD "")) })
  | none =>
    let started := Message.execStarted seq req.args
    let copied := copyChunks send seq proc.chunks
    match waitResult proc.outcome copied.2 with
    | none =>
      let completed := Message.execCompleted seq 0 none
      let attempted := started :: copied.1 ++ [completed]
      (seq, { seq := seq, attempted := attempted,
              delivered := attempted.filter (fun m => (send m).isNone),
              ret := none })
    | some w =>
      let exitCode : Int :=
        match w with
        | .exitError code => code
        | .ioError _ => ExitCodeUndefined
      let completed := Message.execCompleted seq exitCode (some (encodeWaitErr w))
      let attempted := started :: copied.1 ++ [completed]
      (seq, { seq := seq, attempted := attempted,
              delivered := attempted.filter (fun m => (send m).isNone),
              ret := some (traceWrap (waitErrToErr w)) })

end Exec

namespace Discovery

/-! ## Discovery client (lib/rpc/client/discovery.go)

The four single shot calls.  The RPC layer answers each call with a
payload or a gRPC error; a gRPC error either came from the agent (a
remote application error) or from the transport (agent unreachable).
The error translation collaborators are external libraries modelled by
their contract: trace.Wrap keeps the wrapped error intact inside the
trace wrapper and trail.FromGRPC translates the gRPC status into a typed
error; both keep the underlying gRPC status and so the remote versus
local distinction. -/

structure GrpcErr where
  transport : Bool
  code : Nat
  msg : String
deriving DecidableEq, Repr

/-- An error as the client returns it: either the propagated RPC error
(with however many trace frames around it) or a locally generated one
(payload decode, timestamp conversion). -/
inductive ClientError where
  | fromRPC (traces : Nat) (e : GrpcErr)
  | localErr (traces : Nat) (msg : String)
deriving DecidableEq, Repr

/-- Models trace.Wrap applied to an error received from a gRPC call. -/
def traceWrapRPC (e : GrpcErr) : ClientError := ClientError.fromRPC 1 e

/-- Models trail.FromGRPC applied to an error received from a gRPC
call. -/
def trailFromGRPC (e : GrpcErr) : ClientError := ClientError.fromRPC 0 e

/-- The gRPC error a client error grew from, when there is one; its
transport flag tells an unreachable agent from an agent that rejected
the call. -/
def ClientError.grpcCause : ClientError → Option GrpcErr
  | .fromRPC _ e => some e
  | .localErr _ _ => none

/-- The typed responses of one agent to the four discovery calls. -/
structure DiscoveryService where
  getSystemInfo : Except GrpcErr (List Nat)
  getRuntimeConfig : Except GrpcErr String
  getCurrentTime : Except GrpcErr Int
  getVersion : Except GrpcErr String

/-- Embedding of Client.GetSystemInfo; unmarshalSystemInfo stands for the
external storage.UnmarshalSystemInfo collaborator. -/
def ClientGetSystemInfo (disc : DiscoveryService)
    (unmarshalSystemInfo : List Nat → Except String String) : Except ClientError String :=
  match disc.getSystemInfo with
  | .error err => .error (traceWrapRPC err)
  | .ok payload =>
    match unmarshalSystemInfo payload with
    | .error err => .error (ClientError.localErr 1 err)
    | .ok system => .ok system

/-- Embedding of Client.GetRuntimeConfig. -/
def ClientGetRuntimeConfig (disc : DiscoveryService) : Except ClientError String :=
  match disc.getRuntimeConfig with
  | .error err => .error (traceWrapRPC err)
  | .ok config => .ok config

/-- Embedding of Client.GetCurrentTime; timestampFromProto stands for the
external types.TimestampFromProto collaborator. -/
def ClientGetCurrentTime (disc : DiscoveryService)
    (timestampFromProto : Int → Except String Int) : Except ClientError Int :=
  match disc.getCurrentTime with
  | .error err => .error (traceWrapRPC err)
  | .ok ts =>
    match timestampFromProto ts with
    | .error err => .error (ClientError.localErr 1 err)
    | .ok t => .ok t

/-- Embedding of Client.GetVersion (the one call translated through
trail.FromGRPC rather than trace.Wrap). -/
def ClientGetVersion (disc : DiscoveryService) : Except ClientError String :=
  match disc.getVersion with
  | .error err => .error (trailFromGRPC err)
  | .ok version => .ok version

/-- A discovery call result is an error that still carries the given
gRPC error as its cause. -/
def errorWithCause {α : Type} (r : Except ClientError α) (e : GrpcErr) : Prop :=
  ∃ ce, r = Except.error ce ∧ ce.grpcCause = some e

end Discovery

namespace Acl

/-! ## Enterprise ACL operator (e/lib/ops/acl/operator.go)

Each method of the wrapper is embedded as a function of the
authorization checker (the Action, ClusterAction and
AuthConnectorActions capabilities inherited from the open source ACL
operator, modelled abstractly) and of the inner enterprise operator
(modelled as a record of response functions).  Every embedded method
returns the list of inner operator calls it performed alongside its
result.  Request and response payloads irrelevant to the control flow
are simplified to strings. -/

/-- Resource kind and verb constants (values of external constants
packages; only their identity matters here). -/
def KindCluster : String := "cluster"

def KindLicense : String := "license"

def KindRole : String := "role"

def KindOIDCConnector : String := "oidc"

def KindSAMLConnector : String := "saml"

def VerbCreate : String := "create"

def VerbRead : String := "read"

def VerbUpdate : String := "update"

def VerbDelete : String := "delete"

def VerbList : String := "list"

def VerbRegister : String := "register"

/-- The authorization capabilities of the embedded open source ACL
operator, as consumed by the enterprise wrapper. -/
structure AuthChecker where
  clusterAction : String → String → String → Option Err
  action : String → String → Option Err
  authConnectorActions : String → List String → Option Err

/-- A teleport role, reduced to what the wrapper inspects: its name and
whether its metadata labels mark it as a system role. -/
structure Role where
  name : String
  isSystem : Bool
deriving DecidableEq, Repr

/-- The calls a wrapper method can make on the inner enterprise
operator. -/
inductive InnerCall where
  | registerAgent
  | requestClusterCopy
  | getClusterEndpoints
  | updateClusterEndpoints
  | checkForUpdate
  | downloadUpdate
  | enablePeriodicUpdates
  | disablePeriodicUpdates
  | startPeriodicUpdates
  | stopPeriodicUpdates
  | periodicUpdatesStatus
  | upsertTrustedCluster
  | deleteTrustedCluster
  | getTrustedClusters
  | getTrustedCluster
  | acceptRemoteCluster
  | removeRemoteCluster
  | newLicense
  | checkSiteLicense
  | updateLicense
  | getLicenseCA
  | upsertRole
  | getRole
  | getRoles
  | deleteRole
  | upsertOIDCConnector
  | getOIDCConnector
  | getOIDCConnectors
  | deleteOIDCConnector
  | upsertSAMLConnector
  | getSAMLConnector
  | getSAMLConnectors
  | deleteSAMLConnector
deriving DecidableEq, Repr

/-- The inner enterprise operator as a record of responses. -/
structure InnerOperator where
  registerAgent : String → Except Err String
  requestClusterCopy : Option Err
  getClusterEndpoints : Except Err String
  updateClusterEndpoints : Option Err
  checkForUpdate : Except Err String
  downloadUpdate : Option Err
  enablePeriodicUpdates : Option Err
  disablePeriodicUpdates : Option Err
  startPeriodicUpdates : Option Err
  stopPeriodicUpdates : Option Err
  periodicUpdatesStatus : Except Err String
  upsertTrustedCluster : Option Err
  deleteTrustedCluster : Option Err
  getTrustedClusters : Except Err (List String)
  getTrustedCluster : String → Except Err String
  acceptRemoteCluster : Except Err String
  removeRemoteCluster : Option Err
  newLicense : Except Err String
  checkSiteLicense : Option Err
  updateLicense : Option Err
  getLicenseCA : Except Err (List Nat)
  upsertRole : Role → Option Err
  getRole : String → Except Err Role
  getRoles : Except Err (List Role)
  deleteRole : String → Option Err
  upsertOIDCConnector : Option Err
  getOIDCConnector : String → Except Err String
  getOIDCConnectors : Except Err (List String)
  deleteOIDCConnector : Option Err
  upsertSAMLConnector : Option Err
  getSAMLConnector : String → Except Err String
  getSAMLConnectors : Except Err (List String)
  deleteSAMLConnector : Option Err

/-- The check-then-delegate shape shared by the simple wrapper methods
that return a value. -/
def guarded {α : Type} (g : Option Err) (c : InnerCall) (resp : Except Err α) :
    List InnerCall × Except Err α :=
  match g with
  | some e => ([], .error (traceWrap e))
  | none => ([c], resp)

/-- The check-then-delegate shape shared by the simple wrapper methods
that return only an error. -/
def guardedErr (g : Option Err) (c : InnerCall) (resp : Option Err) :
    List InnerCall × Option Err :=
  match g with
  | some e => ([], some (traceWrap e))
  | none => ([c], resp)

/-- Embedding of the roleActions helper: checks every action on the role
resource, failing on the first denial. -/
def roleActions (chk : AuthChecker) : List String → Option Err
  | [] => none
  | a :: rest =>
    match chk.action KindRole a with
    | some e => some (traceWrap e)
    | none => roleActions chk rest

/-- The fallback guard shape of the role and connector methods: the
cluster level check, and when it is denied, the resource level check
decides. -/
def fallbackGuard (clusterCheck : Option Err) (resourceCheck : Option Err) : Option Err :=
  match clusterCheck with
  | none => none
  | some _ =>
    match resourceCheck with
    | some e => some (traceWrap e)
    | none => none

/-- Embedding of OperatorACL.RegisterAgent. -/
def RegisterAgent (chk : AuthChecker) (inner : InnerOperator) (clusterName : String) :
    List InnerCall × Except Err String :=
  guarded (chk.clusterAction clusterName KindCluster VerbUpdate) .registerAgent
    (inner.registerAgent clusterName)

/-- Embedding of OperatorACL.RequestClusterCopy. -/
def RequestClusterCopy (chk : AuthChecker) (inner : InnerOperator) :
    List InnerCall × Option Err :=
  guardedErr (chk.action KindCluster VerbCreate) .requestClusterCopy inner.requestClusterCopy

/-- Embedding of OperatorACL.GetClusterEndpoints. -/
def GetClusterEndpoints (chk : AuthChecker) (inner : InnerOperator) (siteDomain : String) :
    List InnerCall × Except Err String :=
  guarded (chk.clusterAction siteDomain KindCluster VerbRead) .getClusterEndpoints
    inner.getClusterEndpoints

/-- Embedding of OperatorACL.UpdateClusterEndpoints. -/
def UpdateClusterEndpoints (chk : AuthChecker) (inner : InnerOperator) (siteDomain : String) :
    List InnerCall × Option Err :=
  guardedErr (chk.clusterAction siteDomain KindCluster VerbUpdate) .updateClusterEndpoints
    inner.updateClusterEndpoints

/-- Embedding of OperatorACL.CheckForUpdate. -/
def CheckForUpdate (chk : AuthChecker) (inner : InnerOperator) (siteDomain : String) :
    List InnerCall × Except Err String :=
  guarded (chk.clusterAction siteDomain KindCluster VerbRead) .checkForUpdate
    inner.checkForUpdate

/-- Embedding of OperatorACL.DownloadUpdate. -/
def DownloadUpdate (chk : AuthChecker) (inner : InnerOperator) (siteDomain : String) :
    List InnerCall × Option Err :=
  guardedErr (chk.clusterAction siteDomain KindCluster VerbUpdate) .downloadUpdate
    inner.downloadUpdate

/-- Embedding of OperatorACL.EnablePeriodicUpdates. -/
def EnablePeriodicUpdates (chk : AuthChecker) (inner : InnerOperator) (siteDomain : String) :
    List InnerCall × Option Err :=
  guardedErr (chk.clusterAction siteDomain KindCluster VerbUpdate) .enablePeriodicUpdates
    inner.enablePeriodicUpdates

/-- Embedding of OperatorACL.DisablePeriodicUpdates. -/
def DisablePeriodicUpdates (chk : AuthChecker) (inner : InnerOperator) (siteDomain : String) :
    List InnerCall × Option Err :=
  guardedErr (chk.clusterAction siteDomain KindCluster VerbUpdate) .disablePeriodicUpdates
    inner.disablePeriodicUpdates

/-- Embedding of OperatorACL.StartPeriodicUpdates. -/
def StartPeriodicUpdates (chk : AuthChecker) (inner : InnerOperator) (siteDomain : String) :
    List InnerCall × Option Err :=
  guardedErr (chk.clusterAction siteDomain KindCluster VerbUpdate) .startPeriodicUpdates
    inner.startPeriodicUpdates

/-- Embedding of OperatorACL.StopPeriodicUpdates. -/
def StopPeriodicUpdates (chk : AuthChecker) (inner : InnerOperator) (siteDomain : String) :
    List InnerCall × Option Err :=
  guardedErr (chk.clusterAction siteDomain KindCluster VerbUpdate) .stopPeriodicUpdates
    inner.stopPeriodicUpdates

/-- Embedding of OperatorACL.PeriodicUpdatesStatus. -/
def PeriodicUpdatesStatus (chk : AuthChecker) (inner : InnerOperator) (siteDomain : String) :
    List InnerCall × Except Err String :=
  guarded (chk.clusterAction siteDomain KindCluster VerbRead) .periodicUpdatesStatus
    inner.periodicUpdatesStatus

/-- Embedding of OperatorACL.UpsertTrustedCluster. -/
def UpsertTrustedCluster (chk : AuthChecker) (inner : InnerOperator) (siteDomain : String) :
    List InnerCall × Option Err :=
  guardedErr (chk.clusterAction siteDomain KindCluster VerbUpdate) .upsertTrustedCluster
    inner.upsertTrustedCluster

/-- Embedding of OperatorACL.DeleteTrustedCluster. -/
def DeleteTrustedCluster (chk : AuthChecker) (inner : InnerOperator) (clusterName : String) :
    List InnerCall × Option Err :=
  guardedErr (chk.clusterAction clusterName KindCluster VerbUpdate) .deleteTrustedCluster
    inner.deleteTrustedCluster

/-- Embedding of OperatorACL.GetTrustedClusters. -/
def GetTrustedClusters (chk : AuthChecker) (inner : InnerOperator) (siteDomain : String) :
    List InnerCall × Except Err (List String) :=
  guarded (chk.clusterAction siteDomain KindCluster VerbRead) .getTrustedClusters
    inner.getTrustedClusters

/-- Embedding of OperatorACL.GetTrustedCluster. -/
def GetTrustedCluster (chk : AuthChecker) (inner : InnerOperator) (siteDomain name : String) :
    List InnerCall × Except Err String :=
  guarded (chk.clusterAction siteDomain KindCluster VerbRead) .getTrustedCluster
    (inner.getTrustedCluster name)

/-- Embedding of OperatorACL.AcceptRemoteCluster. -/
def AcceptRemoteCluster (chk : AuthChecker) (inner : InnerOperator) :
    List InnerCall × Except Err String :=
  guarded (chk.action KindCluster VerbRegister) .acceptRemoteCluster inner.acceptRemoteCluster

/-- Embedding of OperatorACL.RemoveRemoteCluster. -/
def RemoveRemoteCluster (chk : AuthChecker) (inner : InnerOperator) :
    List InnerCall × Option Err :=
  guardedErr (chk.action KindCluster VerbRegister) .removeRemoteCluster
    inner.removeRemoteCluster

/-- Embedding of OperatorACL.NewLicense. -/
def NewLicense (chk : AuthChecker) (inner : InnerOperator) :
    List InnerCall × Except Err String :=
  guarded (chk.action KindLicense VerbCreate) .newLicense inner.newLicense

/-- Embedding of OperatorACL.CheckSiteLicense. -/
def CheckSiteLicense (chk : AuthChecker) (inner : InnerOperator) (siteDomain : String) :
    List InnerCall × Option Err :=
  guardedErr (chk.clusterAction siteDomain KindCluster VerbUpdate) .checkSiteLicense
    inner.checkSiteLicense

/-- Embedding of OperatorACL.UpdateLicense. -/
def UpdateLicense (chk : AuthChecker) (inner : InnerOperator) (siteDomain : String) :
    List InnerCall × Option Err :=
  guardedErr (chk.clusterAction siteDomain KindCluster VerbUpdate) .updateLicense
    inner.updateLicense

/-- Embedding of OperatorACL.GetLicenseCA: no authorization check at all,
the inner operator is always consulted and its result returned as is. -/
def GetLicenseCA (_chk : AuthChecker) (inner : InnerOperator) :
    List InnerCall × Except Err (List Nat) :=
  ([InnerCall.getLicenseCA], inner.getLicenseCA)

/-- Embedding of OperatorACL.UpsertRole. -/
def UpsertRole (chk : AuthChecker) (inner : InnerOperator) (siteDomain : String) (role : Role) :
    List InnerCall × Option Err :=
  match fallbackGuard (chk.clusterAction siteDomain KindCluster VerbUpdate)
      (roleActions chk [VerbCreate, VerbUpdate]) with
  | some e => ([], some e)
  | none =>
    if role.isSystem then ([], some (traceAccessDenied "system roles cannot be created"))
    else ([InnerCall.upsertRole], inner.upsertRole role)

/-- Embedding of OperatorACL.GetRole. -/
def GetRole (chk : AuthChecker) (inner : InnerOperator) (siteDomain name : String) :
    List InnerCall × Except Err Role :=
  match fallbackGuard (chk.clusterAction siteDomain KindCluster VerbRead)
      (roleActions chk [VerbRead]) with
  | some e => ([], .error e)
  | none => ([InnerCall.getRole], inner.getRole name)

/-- Embedding of OperatorACL.GetRoles. -/
def GetRoles (chk : AuthChecker) (inner : InnerOperator) (siteDomain : String) :
    List InnerCall × Except Err (List Role) :=
  match fallbackGuard (chk.clusterAction siteDomain KindCluster VerbRead)
      (roleActions chk [VerbList, VerbRead]) with
  | some e => ([], .error e)
  | none => ([InnerCall.getRoles], inner.getRoles)

/-- Embedding of OperatorACL.DeleteRole. -/
def DeleteRole (chk : AuthChecker) (inner : InnerOperator) (siteDomain name : String) :
    List InnerCall × Option Err :=
  match fallbackGuard (chk.clusterAction siteDomain KindCluster VerbUpdate)
      (roleActions chk [VerbDelete]) with
  | some e => ([], some e)
  | none =>
    match inner.getRole name with
    | .error e => ([InnerCall.getRole], some (traceWrap e))
    | .ok role =>
      if role.isSystem then
        ([InnerCall.getRole], some (traceAccessDenied "system roles cannot be deleted"))
      else ([InnerCall.getRole, InnerCall.deleteRole], inner.deleteRole name)

/-- Embedding of OperatorACL.UpsertOIDCConnector. -/
def UpsertOIDCConnector (chk : AuthChecker) (inner : InnerOperator) (siteDomain : String) :
    List InnerCall × Option Err :=
  match fallbackGuard (chk.clusterAction siteDomain KindCluster VerbUpdate)
      (chk.authConnectorActions KindOIDCConnector [VerbCreate, VerbUpdate]) with
  | some e => ([], some e)
  | none => ([InnerCall.upsertOIDCConnector], inner.upsertOIDCConnector)

/-- Embedding of OperatorACL.GetOIDCConnector. -/
def GetOIDCConnector (chk : AuthChecker) (inner : InnerOperator) (siteDomain name : String) :
    List InnerCall × Except Err String :=
  match fallbackGuard (chk.clusterAction siteDomain KindCluster VerbRead)
      (chk.authConnectorActions KindOIDCConnector [VerbRead]) with
  | some e => ([], .error e)
  | none => ([InnerCall.getOIDCConnector], inner.getOIDCConnector name)

/-- Embedding of OperatorACL.GetOIDCConnectors. -/
def GetOIDCConnectors (chk : AuthChecker) (inner : InnerOperator) (siteDomain : String) :
    List InnerCall × Except Err (List String) :=
  match fallbackGuard (chk.clusterAction siteDomain KindCluster VerbRead)
      (chk.authConnectorActions KindOIDCConnector [VerbList, VerbRead]) with
  | some e => ([], .error e)
  | none => ([InnerCall.getOIDCConnectors], inner.getOIDCConnectors)

/-- Embedding of OperatorACL.DeleteOIDCConnector. -/
def DeleteOIDCConnector (chk : AuthChecker) (inner : InnerOperator) (siteDomain : String) :
    List InnerCall × Option Err :=
  match fallbackGuard (chk.clusterAction siteDomain KindCluster VerbUpdate)
      (chk.authConnectorActions KindOIDCConnector [VerbDelete]) with
  | some e => ([], some e)
  | none => ([InnerCall.deleteOIDCConnector], inner.deleteOIDCConnector)

/-- Embedding of OperatorACL.UpsertSAMLConnector. -/
def UpsertSAMLConnector (chk : AuthChecker) (inner : InnerOperator) (siteDomain : String) :
    List InnerCall × Option Err :=
  match fallbackGuard (chk.clusterAction siteDomain KindCluster VerbUpdate)
      (chk.authConnectorActions KindSAMLConnector [VerbCreate, VerbUpdate]) with
  | some e => ([], some e)
  | none => ([InnerCall.upsertSAMLConnector], inner.upsertSAMLConnector)

/-- Embedding of OperatorACL.GetSAMLConnector. -/
def GetSAMLConnector (chk : AuthChecker) (inner : InnerOperator) (siteDomain name : String) :
    List InnerCall × Except Err String :=
  match fallbackGuard (chk.clusterAction siteDomain KindCluster VerbRead)
      (chk.authConnectorActions KindSAMLConnector [VerbRead]) with
  | some e => ([], .error e)
  | none => ([InnerCall.getSAMLConnector], inner.getSAMLConnector name)

/-- Embedding of OperatorACL.GetSAMLConnectors. -/
def GetSAMLConnectors (chk : AuthChecker) (inner : InnerOperator) (siteDomain : String) :
    List InnerCall × Except Err (List String) :=
  match fallbackGuard (chk.clusterAction siteDomain KindCluster VerbRead)
      (chk.authConnectorActions KindSAMLConnector [VerbList, VerbRead]) with
  | some e => ([], .error e)
  | none => ([InnerCall.getSAMLConnectors], inner.getSAMLConnectors)

/-- Embedding of OperatorACL.DeleteSAMLConnector. -/
def DeleteSAMLConnector (chk : AuthChecker) (inner : InnerOperator) (siteDomain : String) :
    List InnerCall × Option Err :=
  match fallbackGuard (chk.clusterAction siteDomain KindCluster VerbUpdate)
      (chk.authConnectorActions KindSAMLConnector [VerbDelete]) with
  | some e => ([], some e)
  | none => ([InnerCall.deleteSAMLConnector], inner.deleteSAMLConnector)

/-- A checker that denies everything with the given error, used to
observe which wrapper methods still reach the inner operator. -/
def constChecker (e : Err) : AuthChecker :=
  { clusterAction := fun _ _ _ => some e,
    action := fun _ _ => some e,
    authConnectorActions := fun _ _ => some e }

end Acl

/-! ## Concrete fixtures used by the witnesses and counterexamples -/

namespace Ops

/-- The classification of a result: the error kind when the result is an
error, none on success. -/
def errKindOf {α : Type} : Except Err α → Option ErrKind
  | .error e => some e.kind
  | .ok _ => none

def sampleKey : SiteKey := { accountID := "acct", siteDomain := "example.com" }

def sampleOpKey : SiteOperationKey :=
  { accountID := "acct", siteDomain := "example.com", operationID := "op-1" }

def samplePE : ProgressEntry :=
  { siteDomain := "example.com", operationID := "op-1", step := 1, completion := 10,
    state := "in_progress", message := "working", created := 5 }

/-- A backend with no operations and no clusters whose writes all
succeed. -/
def emptyOperator : Operator :=
  { getSiteOperations := fun _ _ => .ok [],
    getSiteOperationProgress := fun _ => .ok samplePE,
    getSiteOperation := fun _ => .error (traceNotFound "none"),
    getSites := fun _ => .ok [],
    setOperationState := fun _ _ => none,
    activateSite := fun _ => none }

/-- A backend answering every operation query with the given list and
every progress query with the given entry. -/
def opWithOperations (l : List SiteOperation) (pe : ProgressEntry) : Operator :=
  { getSiteOperations := fun _ _ => .ok l,
    getSiteOperationProgress := fun _ => .ok pe,
    getSiteOperation := fun _ => .error (traceNotFound "none"),
    getSites := fun _ => .ok [],
    setOperationState := fun _ _ => none,
    activateSite := fun _ => none }

def opA : SiteOperation :=
  { id := "op-a", accountID := "acct", siteDomain := "example.com",
    opType := OperationUpdate, state := "completed", created := 2 }

def opB : SiteOperation :=
  { id := "op-b", accountID := "acct", siteDomain := "example.com",
    opType := OperationUpdate, state := "completed", created := 1 }

def sampleSite : Site := { accountID := SystemAccountID, domain := "example.com" }

def installOp : SiteOperation :=
  { id := "op-i", accountID := SystemAccountID, siteDomain := "example.com",
    opType := OperationInstall, state := "completed", created := 1 }

/-- A wizard mode backend: exactly one cluster, whose install operation
exists. -/
def wizardOperator : Operator :=
  { getSiteOperations := fun _ _ => .ok [installOp],
    getSiteOperationProgress := fun _ => .ok samplePE,
    getSiteOperation := fun _ => .error (traceNotFound "none"),
    getSites := fun _ => .ok [sampleSite],
    setOperationState := fun _ _ => none,
    activateSite := fun _ => none }

def backendWriteErr : Err :=
  { kind := .other, msg := "backend write failed", fields := [], traces := 0 }

/-- A backend whose state writes fail. -/
def failingSetter : Operator :=
  { getSiteOperations := fun _ _ => .ok [],
    getSiteOperationProgress := fun _ => .ok samplePE,
    getSiteOperation := fun _ => .error (traceNotFound "none"),
    getSites := fun _ => .ok [],
    setOperationState := fun _ _ => some backendWriteErr,
    activateSite := fun _ => none }

end Ops

namespace Exec

/-- A stream whose sends all succeed. -/
def sendAlways : Message → Option Err := fun _ => none

def sendErrValue : Err := { kind := .other, msg := "stream closed", fields := [], traces := 0 }

/-- A stream that fails exactly the output events. -/
def sendFailOutputs : Message → Option Err := fun m =>
  match m with
  | .execOutput _ _ _ => some sendErrValue
  | _ => none

/-- A stream that fails exactly the started events. -/
def sendFailStarted : Message → Option Err := fun m =>
  match m with
  | .execStarted _ _ => some sendErrValue
  | _ => none

def startFailure : Err :=
  { kind := .other, msg := "no such file or directory", fields := [], traces := 0 }

def missingReq : CommandArgs := { args := ["/bin/missing"], workingDir := "/" }

/-- A request whose process cannot be launched. -/
def missingProc : ProcessSpec := { startError := some startFailure, chunks := [], outcome := .exited 0 }

def echoReq : CommandArgs := { args := ["/bin/echo", "hi"], workingDir := "/" }

/-- A process that prints two bytes on stdout and exits cleanly. -/
def echoProc : ProcessSpec :=
  { startError := none, chunks := [(Fd.stdout, [104, 105])], outcome := .exited 0 }

end Exec

namespace Discovery

def remoteReject : GrpcErr := { transport := false, code := 3, msg := "invalid argument" }

def transportDown : GrpcErr := { transport := true, code := 14, msg := "unavailable" }

/-- An agent connection on which every discovery call fails. -/
def failingService : DiscoveryService :=
  { getSystemInfo := .error remoteReject,
    getRuntimeConfig := .error transportDown,
    getCurrentTime := .error remoteReject,
    getVersion := .error transportDown }

def okUnmarshal : List Nat → Except String String := fun _ => .ok "system"

def okTimestamp : Int → Except String Int := fun t => .ok t

end Discovery

/-! ## Theorems for the claims -/

namespace Ops

/-- C4: for every cluster key and every accessor query (install
operation, last uninstall, last completed update, completed install,
last operation, last finished, last upgrade, last shrink, active
operations, active operations by type), when the filtered result from
the backend is empty the accessor returns a NotFound error, never an
empty success value. -/
theorem accessors_empty_filter_not_found (siteKey : SiteKey) (operator : Operator)
    (opType : String)
    (h : ∀ k f, operator.getSiteOperations k f = Except.ok []) :
    errKindOf (GetInstallOperation siteKey operator).2 = some ErrKind.notFound ∧
    errKindOf (GetLastUninstallOperation siteKey operator).2 = some ErrKind.notFound ∧
    errKindOf (GetLastCompletedUpdateOperation siteKey operator).2 = some ErrKind.notFound ∧
    errKindOf (GetCompletedInstallOperation siteKey operator).2 = some ErrKind.notFound ∧
    errKindOf (GetLastOperation siteKey operator).2 = some ErrKind.notFound ∧
    errKindOf (GetLastFinishedOperation siteKey operator).2 = some ErrKind.notFound ∧
    errKindOf (GetLastUpgradeOperation siteKey operator).2 = some ErrKind.notFound ∧
    errKindOf (GetLastShrinkOperation siteKey operator).2 = some ErrKind.notFound ∧
    errKindOf (GetActiveOperations siteKey operator).2 = some ErrKind.notFound ∧
    errKindOf (GetActiveOperationsByType siteKey operator opType).2 = some ErrKind.notFound := by
  refine ⟨?_, ?_, ?_, ?_, ?_, ?_, ?_, ?_, ?_, ?_⟩ <;>
    simp [GetInstallOperation, GetLastUninstallOperation, GetLastCompletedUpdateOperation,
      GetCompletedInstallOperation, GetLastOperation, GetLastFinishedOperation,
      GetLastUpgradeOperation, GetLastShrinkOperation, GetActiveOperations,
      GetActiveOperationsByType, h, errKindOf, traceNotFound]

/-- Witness for accessors_empty_filter_not_found at a backend with no
operations. -/
theorem accessors_empty_filter_not_found_witness :
    errKindOf (GetInstallOperation sampleKey emptyOperator).2 = some ErrKind.notFound ∧
    errKindOf (GetLastUninstallOperation sampleKey emptyOperator).2 = some ErrKind.notFound ∧
    errKindOf (GetLastCompletedUpdateOperation sampleKey emptyOperator).2 = some ErrKind.notFound ∧
    errKindOf (GetCompletedInstallOperation sampleKey emptyOperator).2 = some ErrKind.notFound ∧
    errKindOf (GetLastOperation sampleKey emptyOperator).2 = some ErrKind.notFound ∧
    errKindOf (GetLastFinishedOperation sampleKey emptyOperator).2 = some ErrKind.notFound ∧
    errKindOf (GetLastUpgradeOperation sampleKey emptyOperator).2 = some ErrKind.notFound ∧
    errKindOf (GetLastShrinkOperation sampleKey emptyOperator).2 = some ErrKind.notFound ∧
    errKindOf (GetActiveOperations sampleKey emptyOperator).2 = some ErrKind.notFound ∧
    errKindOf (GetActiveOperationsByType sampleKey emptyOperator OperationUpdate).2 =
      some ErrKind.notFound :=
  accessors_empty_filter_not_found sampleKey emptyOperator OperationUpdate (fun _ _ => rfl)

/-- C5: CompleteOperation issues exactly one state write that sets the
operation state to Completed and carries exactly one terminal progress
entry with the fixed final step, the 100 percent completion marker, the
fixed success message and the current time; applying it to the
(spec-modelled) backend appends that one entry, and applying it twice
appends two such entries. -/
theorem completeOperation_terminal_entry (b : BackendState) (key : SiteOperationKey)
    (operator : Operator) (now now2 : Int) :
    (CompleteOperation key operator now).1 =
      [Call.setOperationState key (completeOperationRequest key now)] ∧
    (completeOperationRequest key now).state = OperationStateCompleted ∧
    (completeOperationRequest key now).progress =
      { siteDomain := key.siteDomain, operationID := key.operationID,
        step := FinalStep, completion := Completed, state := ProgressStateCompleted,
        message := "Operation has completed", created := now } ∧
    ((CompleteOperation key operator now).1.foldl applyCall b).stateOf key =
      some OperationStateCompleted ∧
    ((CompleteOperation key operator now).1.foldl applyCall b).progressLog =
      b.progressLog ++ [(completeOperationRequest key now).progress] ∧
    ((CompleteOperation key operator now2).1.foldl applyCall
        ((CompleteOperation key operator now).1.foldl applyCall b)).progressLog =
      b.progressLog ++ [(completeOperationRequest key now).progress,
        (completeOperationRequest key now2).progress] := by
  refine ⟨?_, ?_, ?_, ?_, ?_, ?_⟩ <;>
    simp [CompleteOperation, completeOperationRequest, applyCall, BackendState.stateOf,
      List.find?]

/-- C6 counterexample: with the caller message " disk full" (leading
space) the progress entry message the code produces keeps the interior
double space, so it is not the trimmed message prefixed. -/
theorem failOperation_leading_whitespace_counterexample :
    (failOperationRequest sampleOpKey " disk full" 0).progress.message =
      "Operation failure:  disk full" ∧
    (failOperationRequest sampleOpKey " disk full" 0).progress.message ≠
      "Operation failure: " ++ trimSpace " disk full" := by
  constructor
  · decide
  · decide

/-- C6 amended: FailOperation issues one state write setting the state
to Failed, with a terminal entry whose message is the concatenation of
the "Operation failure: " marker and the caller message, the whole
string then trimmed of surrounding whitespace (so whitespace inside the
caller message survives), and exactly "Operation failure" when the
caller message is empty. -/
theorem failOperation_message_spec (key : SiteOperationKey) (operator : Operator)
    (m : String) (now : Int) :
    (FailOperation key operator m now).1 =
      [Call.setOperationState key (failOperationRequest key m now)] ∧
    (failOperationRequest key m now).state = OperationStateFailed ∧
    (failOperationRequest key m now).progress.state = ProgressStateFailed ∧
    (failOperationRequest key m now).progress.step = FinalStep ∧
    (failOperationRequest key m now).progress.completion = Completed ∧
    (failOperationRequest key m now).progress.created = now ∧
    (m ≠ "" → (failOperationRequest key m now).progress.message =
      trimSpace ("Operation failure: " ++ m)) ∧
    (failOperationRequest key "" now).progress.message = "Operation failure" ∧
    (failOperationRequest key "disk full" now).progress.message =
      "Operation failure: disk full" := by
  refine ⟨rfl, rfl, rfl, rfl, rfl, rfl, ?_, ?_, ?_⟩
  · intro hm
    simp [failOperationRequest, failOperationMessage, hm]
  · exact (by decide : trimSpace (failOperationMessage "") = "Operation failure")
  · exact (by decide : trimSpace (failOperationMessage "disk full") =
      "Operation failure: disk full")

/-- Witness for failOperation_message_spec at the message "disk full". -/
theorem failOperation_message_spec_witness :
    (FailOperation sampleOpKey emptyOperator "disk full" 0).1 =
      [Call.setOperationState sampleOpKey (failOperationRequest sampleOpKey "disk full" 0)] ∧
    (failOperationRequest sampleOpKey "disk full" 0).state = OperationStateFailed ∧
    (failOperationRequest sampleOpKey "disk full" 0).progress.state = ProgressStateFailed ∧
    (failOperationRequest sampleOpKey "disk full" 0).progress.step = FinalStep ∧
    (failOperationRequest sampleOpKey "disk full" 0).progress.completion = Completed ∧
    (failOperationRequest sampleOpKey "disk full" 0).progress.created = 0 ∧
    ("disk full" ≠ "" → (failOperationRequest sampleOpKey "disk full" 0).progress.message =
      trimSpace ("Operation failure: " ++ "disk full")) ∧
    (failOperationRequest sampleOpKey "" 0).progress.message = "Operation failure" ∧
    (failOperationRequest sampleOpKey "disk full" 0).progress.message =
      "Operation failure: disk full" :=
  failOperation_message_spec sampleOpKey emptyOperator "disk full" 0

end Ops

namespace Ops

/-- C7: in FailOperationAndResetCluster, when the Fail state write
errors, ActivateSite is never invoked and that error (trace-wrapped, so
with its kind and message intact) is surfaced; ActivateSite is invoked
only after the Fail write succeeded. -/
theorem failOperationAndResetCluster_sequencing (key : SiteOperationKey)
    (operator : Operator) (m : String) (now : Int) (e : Err) :
    (operator.setOperationState key (failOperationRequest key m now) = some e →
      FailOperationAndResetCluster key operator m now =
        ([Call.setOperationState key (failOperationRequest key m now)],
          some (traceWrap e))) ∧
    (operator.setOperationState key (failOperationRequest key m now) = none →
      (FailOperationAndResetCluster key operator m now).1 =
        [Call.setOperationState key (failOperationRequest key m now),
          Call.activateSite { accountID := key.accountID, siteDomain := key.siteDomain }]) := by
  constructor
  · intro h
    simp [FailOperationAndResetCluster, FailOperation, h]
  · intro h
    simp only [FailOperationAndResetCluster, FailOperation, h]
    cases operator.activateSite { accountID := key.accountID, siteDomain := key.siteDomain } <;>
      simp

/-- Witness for failOperationAndResetCluster_sequencing: a backend whose
writes fail, and one whose writes succeed. -/
theorem failOperationAndResetCluster_witness :
    FailOperationAndResetCluster sampleOpKey failingSetter "boom" 0 =
      ([Call.setOperationState sampleOpKey (failOperationRequest sampleOpKey "boom" 0)],
        some (traceWrap backendWriteErr)) ∧
    (FailOperationAndResetCluster sampleOpKey emptyOperator "boom" 0).1 =
      [Call.setOperationState sampleOpKey (failOperationRequest sampleOpKey "boom" 0),
        Call.activateSite { accountID := "acct", siteDomain := "example.com" }] :=
  ⟨(failOperationAndResetCluster_sequencing sampleOpKey failingSetter "boom" 0
      backendWriteErr).1 rfl,
   (failOperationAndResetCluster_sequencing sampleOpKey emptyOperator "boom" 0
      backendWriteErr).2 rfl⟩

/-- C8: each "last" query returns exactly the first element of the list
the backend hands back, with no re-sorting, and reversing the backend
list (with distinct first and last elements) changes which operation is
returned. -/
theorem last_queries_return_first_of_backend (siteKey : SiteKey) (pe : ProgressEntry)
    (o o2 : SiteOperation) (rest tail : List SiteOperation) (hne : o ≠ o2) :
    ((GetLastUninstallOperation siteKey (opWithOperations (o :: tail) pe)).2 =
      Except.ok (o, pe) ∧
     (GetLastCompletedUpdateOperation siteKey (opWithOperations (o :: tail) pe)).2 =
      Except.ok o ∧
     (GetLastOperation siteKey (opWithOperations (o :: tail) pe)).2 = Except.ok (o, pe) ∧
     (GetLastFinishedOperation siteKey (opWithOperations (o :: tail) pe)).2 =
      Except.ok (o, pe) ∧
     (GetLastUpgradeOperation siteKey (opWithOperations (o :: tail) pe)).2 = Except.ok o ∧
     (GetLastShrinkOperation siteKey (opWithOperations (o :: tail) pe)).2 = Except.ok o) ∧
    ((GetLastUninstallOperation siteKey
        (opWithOperations (o :: (rest ++ [o2])).reverse pe)).2 ≠
      (GetLastUninstallOperation siteKey (opWithOperations (o :: (rest ++ [o2])) pe)).2 ∧
     (GetLastCompletedUpdateOperation siteKey
        (opWithOperations (o :: (rest ++ [o2])).reverse pe)).2 ≠
      (GetLastCompletedUpdateOperation siteKey (opWithOperations (o :: (rest ++ [o2])) pe)).2 ∧
     (GetLastOperation siteKey (opWithOperations (o :: (rest ++ [o2])).reverse pe)).2 ≠
      (GetLastOperation siteKey (opWithOperations (o :: (rest ++ [o2])) pe)).2 ∧
     (GetLastFinishedOperation siteKey
        (opWithOperations (o :: (rest ++ [o2])).reverse pe)).2 ≠
      (GetLastFinishedOperation siteKey (opWithOperations (o :: (rest ++ [o2])) pe)).2 ∧
     (GetLastUpgradeOperation siteKey
        (opWithOperations (o :: (rest ++ [o2])).reverse pe)).2 ≠
      (GetLastUpgradeOperation siteKey (opWithOperations (o :: (rest ++ [o2])) pe)).2 ∧
     (GetLastShrinkOperation siteKey
        (opWithOperations (o :: (rest ++ [o2])).reverse pe)).2 ≠
      (GetLastShrinkOperation siteKey (opWithOperations (o :: (rest ++ [o2])) pe)).2) := by
  have hne2 : o2 ≠ o := Ne.symm hne
  have hrev : (o :: (rest ++ [o2])).reverse = o2 :: (rest.reverse ++ [o]) := by simp
  constructor
  · refine ⟨?_, ?_, ?_, ?_, ?_, ?_⟩ <;>
      simp [GetLastUninstallOperation, GetLastCompletedUpdateOperation, GetLastOperation,
        GetLastFinishedOperation, GetLastUpgradeOperation, GetLastShrinkOperation,
        opWithOperations]
  · rw [hrev]
    refine ⟨?_, ?_, ?_, ?_, ?_, ?_⟩ <;>
      simp [GetLastUninstallOperation, GetLastCompletedUpdateOperation, GetLastOperation,
        GetLastFinishedOperation, GetLastUpgradeOperation, GetLastShrinkOperation,
        opWithOperations, hne2]

/-- Witness for last_queries_return_first_of_backend on the two distinct
operations opA and opB. -/
theorem last_queries_witness :
    ((GetLastUninstallOperation sampleKey (opWithOperations (opA :: []) samplePE)).2 =
      Except.ok (opA, samplePE) ∧
     (GetLastCompletedUpdateOperation sampleKey (opWithOperations (opA :: []) samplePE)).2 =
      Except.ok opA ∧
     (GetLastOperation sampleKey (opWithOperations (opA :: []) samplePE)).2 =
      Except.ok (opA, samplePE) ∧
     (GetLastFinishedOperation sampleKey (opWithOperations (opA :: []) samplePE)).2 =
      Except.ok (opA, samplePE) ∧
     (GetLastUpgradeOperation sampleKey (opWithOperations (opA :: []) samplePE)).2 =
      Except.ok opA ∧
     (GetLastShrinkOperation sampleKey (opWithOperations (opA :: []) samplePE)).2 =
      Except.ok opA) ∧
    ((GetLastUninstallOperation sampleKey
        (opWithOperations (opA :: ([] ++ [opB])).reverse samplePE)).2 ≠
      (GetLastUninstallOperation sampleKey (opWithOperations (opA :: ([] ++ [opB])) samplePE)).2 ∧
     (GetLastCompletedUpdateOperation sampleKey
        (opWithOperations (opA :: ([] ++ [opB])).reverse samplePE)).2 ≠
      (GetLastCompletedUpdateOperation sampleKey
        (opWithOperations (opA :: ([] ++ [opB])) samplePE)).2 ∧
     (GetLastOperation sampleKey (opWithOperations (opA :: ([] ++ [opB])).reverse samplePE)).2 ≠
      (GetLastOperation sampleKey (opWithOperations (opA :: ([] ++ [opB])) samplePE)).2 ∧
     (GetLastFinishedOperation sampleKey
        (opWithOperations (opA :: ([] ++ [opB])).reverse samplePE)).2 ≠
      (GetLastFinishedOperation sampleKey (opWithOperations (opA :: ([] ++ [opB])) samplePE)).2 ∧
     (GetLastUpgradeOperation sampleKey
        (opWithOperations (opA :: ([] ++ [opB])).reverse samplePE)).2 ≠
      (GetLastUpgradeOperation sampleKey (opWithOperations (opA :: ([] ++ [opB])) samplePE)).2 ∧
     (GetLastShrinkOperation sampleKey
        (opWithOperations (opA :: ([] ++ [opB])).reverse samplePE)).2 ≠
      (GetLastShrinkOperation sampleKey (opWithOperations (opA :: ([] ++ [opB])) samplePE)).2) :=
  last_queries_return_first_of_backend sampleKey samplePE opA opB [] [] (by decide)

/-- C9: GetWizardOperation returns the install operation of the single
cluster when exactly one cluster exists for the system account; for any
other cluster count it returns a BadParameter error and performs no
install operation lookup (the only backend call is the cluster
listing). -/
theorem getWizardOperation_spec (operator : Operator) (cluster : Site)
    (clusters : List Site) (op : SiteOperation) (pe : ProgressEntry) :
    (operator.getSites SystemAccountID = Except.ok [cluster] →
      (GetInstallOperation cluster.key operator).2 = Except.ok (op, pe) →
      (GetWizardOperation operator).2 = Except.ok op) ∧
    (operator.getSites SystemAccountID = Except.ok clusters → clusters.length ≠ 1 →
      (GetWizardOperation operator).1 = [Call.getSites SystemAccountID] ∧
      errKindOf (GetWizardOperation operator).2 = some ErrKind.badParameter) := by
  constructor
  · intro h1 h2
    rcases hgi : GetInstallOperation cluster.key operator with ⟨calls, res⟩
    rw [hgi] at h2
    simp only at h2
    subst h2
    simp [GetWizardOperation, h1, hgi]
  · intro h1 hlen
    rcases clusters with _ | ⟨c, rest2⟩
    · simp [GetWizardOperation, h1, errKindOf, traceBadParameter]
    · rcases rest2 with _ | ⟨c2, rest3⟩
      · exact absurd rfl hlen
      · simp [GetWizardOperation, h1, errKindOf, traceBadParameter]

/-- Witness for getWizardOperation_spec: a wizard backend with one
cluster, and a backend with zero clusters. -/
theorem getWizardOperation_witness :
    (GetWizardOperation wizardOperator).2 = Except.ok installOp ∧
    ((GetWizardOperation emptyOperator).1 = [Call.getSites SystemAccountID] ∧
      errKindOf (GetWizardOperation emptyOperator).2 = some ErrKind.badParameter) :=
  ⟨(getWizardOperation_spec wizardOperator sampleSite [] installOp samplePE).1 rfl rfl,
   (getWizardOperation_spec emptyOperator sampleSite [] installOp samplePE).2 rfl
     (by decide)⟩

end Ops

namespace Exec

/-- C1 counterexample: for a request whose process cannot be launched,
the executor emits no event at all (in particular no completed event
with the undefined exit code sentinel); it returns a "failed to start"
error to its caller instead. -/
theorem exec_start_failure_counterexample :
    (osCommandExec 0 sendAlways missingReq missingProc).2.attempted = [] ∧
    (osCommandExec 0 sendAlways missingReq missingProc).2.ret =
      some { kind := ErrKind.other, msg := "failed to start: no such file or directory",
             fields := [("path", "/bin/missing")], traces := 1 } := by
  constructor
  · rfl
  · rfl

/-- C1 amended: whenever the process could not be launched, the executor
attempts no event whatsoever and returns the start error wrapped with
the "failed to start" message and the attempted path; the undefined exit
code sentinel only ever appears in completed events of commands that did
start. -/
theorem exec_start_failure_returns_error_without_event (c : Int)
    (send : Message → Option Err) (req : CommandArgs) (proc : ProcessSpec) (e : Err)
    (h : proc.startError = some e) :
    (osCommandExec c send req proc).2.attempted = [] ∧
    (osCommandExec c send req proc).2.delivered = [] ∧
    (osCommandExec c send req proc).2.ret =
      some ((traceWrapMsg "failed to start" e).addField "path" (req.args.headD "")) := by
  simp [osCommandExec, h]

/-- Witness for exec_start_failure_returns_error_without_event. -/
theorem exec_start_failure_witness :
    (osCommandExec 0 sendAlways missingReq missingProc).2.attempted = [] ∧
    (osCommandExec 0 sendAlways missingReq missingProc).2.delivered = [] ∧
    (osCommandExec 0 sendAlways missingReq missingProc).2.ret =
      some ((traceWrapMsg "failed to start" startFailure).addField "path"
        (missingReq.args.headD "")) :=
  exec_start_failure_returns_error_without_event 0 sendAlways missingReq missingProc
    startFailure rfl

/-- C2 counterexample: the same cleanly exiting command is reported as
succeeded when its output event is delivered, and as failed (undefined
exit code, stream error in the completed event, error returned) when the
output event send fails — so the reported outcome is not independent of
stream send success. -/
theorem exec_output_send_failure_changes_outcome :
    (osCommandExec 0 sendAlways echoReq echoProc).2.ret = none ∧
    (osCommandExec 0 sendAlways echoReq echoProc).2.attempted =
      [Message.execStarted 1 ["/bin/echo", "hi"],
       Message.execOutput 1 Fd.stdout [104, 105],
       Message.execCompleted 1 0 none] ∧
    (osCommandExec 0 sendFailOutputs echoReq echoProc).2.ret =
      some { kind := ErrKind.other, msg := "stream closed", fields := [], traces := 1 } ∧
    (osCommandExec 0 sendFailOutputs echoReq echoProc).2.attempted =
      [Message.execStarted 1 ["/bin/echo", "hi"],
       Message.execOutput 1 Fd.stdout [104, 105],
       Message.execCompleted 1 ExitCodeUndefined (some "stream closed")] := by
  refine ⟨rfl, rfl, rfl, rfl⟩

/-- Helper: the output forwarding only consults the stream on output
events. -/
theorem copyChunks_congr (s1 s2 : Message → Option Err)
    (h : ∀ seq fd data, s1 (Message.execOutput seq fd data) = s2 (Message.execOutput seq fd data))
    (seq : Int) (chunks : List (Fd × List Nat)) :
    copyChunks s1 seq chunks = copyChunks s2 seq chunks := by
  induction chunks with
  | nil => rfl
  | cons cd rest ih =>
    obtain ⟨fd, data⟩ := cd
    simp only [copyChunks, h, ih]

/-- C2 amended: failure to deliver the started or completed notification
is only logged and never changes the events the executor produces or the
outcome it returns (two streams agreeing on output events yield
identical attempted event sequences and identical results); output event
delivery failure, by contrast, does change the reported outcome, as the
counterexample shows. -/
theorem exec_outcome_independent_of_control_event_delivery (c : Int)
    (s1 s2 : Message → Option Err) (req : CommandArgs) (proc : ProcessSpec)
    (h : ∀ seq fd data,
      s1 (Message.execOutput seq fd data) = s2 (Message.execOutput seq fd data)) :
    (osCommandExec c s1 req proc).2.attempted = (osCommandExec c s2 req proc).2.attempted ∧
    (osCommandExec c s1 req proc).2.ret = (osCommandExec c s2 req proc).2.ret := by
  cases hs : proc.startError with
  | some e => simp [osCommandExec, hs]
  | none =>
    have hc := copyChunks_congr s1 s2 h (c + 1) proc.chunks
    simp only [osCommandExec, hs]
    rw [hc]
    cases waitResult proc.outcome (copyChunks s2 (c + 1) proc.chunks).2 <;> simp

/-- Witness for exec_outcome_independent_of_control_event_delivery: a
stream that delivers everything against one that drops the started
event. -/
theorem exec_outcome_independent_witness :
    (osCommandExec 0 sendAlways echoReq echoProc).2.attempted =
      (osCommandExec 0 sendFailStarted echoReq echoProc).2.attempted ∧
    (osCommandExec 0 sendAlways echoReq echoProc).2.ret =
      (osCommandExec 0 sendFailStarted echoReq echoProc).2.ret :=
  exec_outcome_independent_of_control_event_delivery 0 sendAlways sendFailStarted echoReq
    echoProc (fun _ _ _ => rfl)

end Exec

namespace Discovery

/-- C3: each of the four discovery calls turns an RPC error into a
translated error that still carries the underlying gRPC error — and with
it the remote versus local (transport) distinction — so the caller can
tell an agent-rejected call from an unreachable agent. -/
theorem discovery_calls_preserve_remote_local_distinction (disc : DiscoveryService)
    (unmarshal : List Nat → Except String String) (tsconv : Int → Except String Int)
    (e1 e2 e3 e4 : GrpcErr) :
    (disc.getSystemInfo = Except.error e1 →
      errorWithCause (ClientGetSystemInfo disc unmarshal) e1) ∧
    (disc.getRuntimeConfig = Except.error e2 →
      errorWithCause (ClientGetRuntimeConfig disc) e2) ∧
    (disc.getCurrentTime = Except.error e3 →
      errorWithCause (ClientGetCurrentTime disc tsconv) e3) ∧
    (disc.getVersion = Except.error e4 → errorWithCause (ClientGetVersion disc) e4) := by
  refine ⟨fun h => ⟨traceWrapRPC e1, ?_, rfl⟩, fun h => ⟨traceWrapRPC e2, ?_, rfl⟩,
    fun h => ⟨traceWrapRPC e3, ?_, rfl⟩, fun h => ⟨trailFromGRPC e4, ?_, rfl⟩⟩ <;>
    simp [ClientGetSystemInfo, ClientGetRuntimeConfig, ClientGetCurrentTime,
      ClientGetVersion, h]

/-- Witness for discovery_calls_preserve_remote_local_distinction: an
agent rejecting two calls and unreachable for the other two. -/
theorem discovery_calls_preserve_witness :
    errorWithCause (ClientGetSystemInfo failingService okUnmarshal) remoteReject ∧
    errorWithCause (ClientGetRuntimeConfig failingService) transportDown ∧
    errorWithCause (ClientGetCurrentTime failingService okTimestamp) remoteReject ∧
    errorWithCause (ClientGetVersion failingService) transportDown :=
  let t := discovery_calls_preserve_remote_local_distinction failingService okUnmarshal
    okTimestamp remoteReject transportDown remoteReject transportDown
  ⟨t.1 rfl, t.2.1 rfl, t.2.2.1 rfl, t.2.2.2 rfl⟩

end Discovery

namespace Acl

/-- C10: GetLicenseCA returns exactly the inner operator's GetLicenseCA
result with no authorization check (for every checker and inner
operator), and it is the only method the enterprise ACL wrapper defines
that delegates unconditionally: under a checker that denies every
action, each of the other thirty two methods returns the (trace-wrapped)
authorization error without invoking the inner operator at all. -/
theorem getLicenseCA_sole_unconditional_delegate :
    (∀ (chk : AuthChecker) (inner : InnerOperator),
      GetLicenseCA chk inner = ([InnerCall.getLicenseCA], inner.getLicenseCA)) ∧
    (∀ (e : Err) (inner : InnerOperator) (d n : String) (role : Role),
      RegisterAgent (constChecker e) inner d = ([], Except.error (traceWrap e)) ∧
      RequestClusterCopy (constChecker e) inner = ([], some (traceWrap e)) ∧
      GetClusterEndpoints (constChecker e) inner d = ([], Except.error (traceWrap e)) ∧
      UpdateClusterEndpoints (constChecker e) inner d = ([], some (traceWrap e)) ∧
      CheckForUpdate (constChecker e) inner d = ([], Except.error (traceWrap e)) ∧
      DownloadUpdate (constChecker e) inner d = ([], some (traceWrap e)) ∧
      EnablePeriodicUpdates (constChecker e) inner d = ([], some (traceWrap e)) ∧
      DisablePeriodicUpdates (constChecker e) inner d = ([], some (traceWrap e)) ∧
      StartPeriodicUpdates (constChecker e) inner d = ([], some (traceWrap e)) ∧
      StopPeriodicUpdates (constChecker e) inner d = ([], some (traceWrap e)) ∧
      PeriodicUpdatesStatus (constChecker e) inner d = ([], Except.error (traceWrap e)) ∧
      UpsertTrustedCluster (constChecker e) inner d = ([], some (traceWrap e)) ∧
      DeleteTrustedCluster (constChecker e) inner d = ([], some (traceWrap e)) ∧
      GetTrustedClusters (constChecker e) inner d = ([], Except.error (traceWrap e)) ∧
      GetTrustedCluster (constChecker e) inner d n = ([], Except.error (traceWrap e)) ∧
      AcceptRemoteCluster (constChecker e) inner = ([], Except.error (traceWrap e)) ∧
      RemoveRemoteCluster (constChecker e) inner = ([], some (traceWrap e)) ∧
      NewLicense (constChecker e) inner = ([], Except.error (traceWrap e)) ∧
      CheckSiteLicense (constChecker e) inner d = ([], some (traceWrap e)) ∧
      UpdateLicense (constChecker e) inner d = ([], some (traceWrap e)) ∧
      UpsertRole (constChecker e) inner d role = ([], some (traceWrap (traceWrap e))) ∧
      GetRole (constChecker e) inner d n = ([], Except.error (traceWrap (traceWrap e))) ∧
      GetRoles (constChecker e) inner d = ([], Except.error (traceWrap (traceWrap e))) ∧
      DeleteRole (constChecker e) inner d n = ([], some (traceWrap (traceWrap e))) ∧
      UpsertOIDCConnector (constChecker e) inner d = ([], some (traceWrap e)) ∧
      GetOIDCConnector (constChecker e) inner d n = ([], Except.error (traceWrap e)) ∧
      GetOIDCConnectors (constChecker e) inner d = ([], Except.error (traceWrap e)) ∧
      DeleteOIDCConnector (constChecker e) inner d = ([], some (traceWrap e)) ∧
      UpsertSAMLConnector (constChecker e) inner d = ([], some (traceWrap e)) ∧
      GetSAMLConnector (constChecker e) inner d n = ([], Except.error (traceWrap e)) ∧
      GetSAMLConnectors (constChecker e) inner d = ([], Except.error (traceWrap e)) ∧
      DeleteSAMLConnector (constChecker e) inner d = ([], some (traceWrap e))) := by
  refine ⟨fun chk inner => rfl, fun e inner d n role => ?_⟩
  exact ⟨rfl, rfl, rfl, rfl, rfl, rfl, rfl, rfl, rfl, rfl, rfl, rfl, rfl, rfl, rfl, rfl,
    rfl, rfl, rfl, rfl, rfl, rfl, rfl, rfl, rfl, rfl, rfl, rfl, rfl, rfl, rfl, rfl⟩

end Acl
